import Mathlib

/-!
Verification of the Farm-Data-Automation voice-recording pipeline.

This file is a shallow embedding, in Lean 4, of the parts of the repository
that the specification talks about:

* `backend/services/groq_service.py` — `validate_extracted_data`,
  `_check_type`, `extract_with_retry`;
* `backend/schemas/biotrack_animal.py` — `BIOTRACK_REQUIRED_FIELDS`,
  `get_missing_required_fields`, `format_missing_fields_prompt`;
* `backend/workers/recording_processor.py` — `process_recording`, the
  pipeline orchestrator and its status state machine;
* `backend/api/recordings.py` — `reprocess_recording`;
* `backend/models/recording.py` — `RecordingStatus`.

Python dictionaries are modelled as association lists (`List (String × κ)`),
Python runtime values as the inductive type `PyVal` (with Python truthiness),
raised exceptions as an explicit `Outcome` sum, and the external services
(storage, Whisper, Groq, Dynamics, the regex engine `re.match`) as an
environment record of oracles.  Database commits are modelled by the
orchestrator returning the list of state snapshots it persisted, in order:
that list is exactly what a client polling the API can observe.
-/

namespace FarmSpec

/-- Python runtime value, as far as the embedded code inspects one.  The
`float` payload is the numeric value (no float arithmetic is ever performed
by the embedded code — values are only tested for truthiness, isinstance
and equality with string literals). -/
inductive PyVal where
  | none
  | bool (b : Bool)
  | int (n : Int)
  | float (q : Int)
  | str (s : String)
  | list (xs : List PyVal)
  | dict (xs : List (String × PyVal))

/-- Python truthiness (`bool(v)`): `None`, `False`, `0`, `0.0`, `""` and
empty collections are falsy. -/
def truthy : PyVal → Bool
  | .none => false
  | .bool b => b
  | .int n => n != 0
  | .float q => q != 0
  | .str s => s ≠ ""
  | .list xs => !xs.isEmpty
  | .dict xs => !xs.isEmpty

/-- Python `str(v)`, used only as input to the (oracle) regex matcher; the
repr of containers is abbreviated since no embedded pattern inspects it. -/
def pyStr : PyVal → String
  | .none => "None"
  | .bool true => "True"
  | .bool false => "False"
  | .int n => toString n
  | .float q => toString q
  | .str s => s
  | .list _ => "[...]"
  | .dict _ => "\x7b...\x7d"

/-- Python `d.get(k)` on a dict modelled as an association list: the first
binding wins, absence yields `None`. -/
def lookupVal (d : List (String × PyVal)) (k : String) : PyVal :=
  (d.lookup k).getD PyVal.none

/-- Python `k in d` on a dict. -/
def hasKey (d : List (String × PyVal)) (k : String) : Bool :=
  (d.lookup k).isSome

/-- Python `str.lower()` (ASCII case folding suffices for every string the
embedded code lowers), as a structurally recursive map over the characters. -/
def strToLower (s : String) : String :=
  ⟨s.data.map Char.toLower⟩

/-- Character-list `bs` starts with `as`. -/
def startsWithChars : List Char → List Char → Bool
  | [], _ => true
  | _ :: _, [] => false
  | a :: as, b :: bs => a == b && startsWithChars as bs

/-- Character-list `s` has `sub` as a contiguous run somewhere. -/
def substrAux (sub : List Char) : List Char → Bool
  | [] => startsWithChars sub []
  | b :: bs => startsWithChars sub (b :: bs) || substrAux sub bs

/-- Python `sub in s` (substring containment). -/
def containsSubstr (s sub : String) : Bool :=
  substrAux sub.data s.data

/-- Python `v == lit` where `lit` is a string literal: only equal strings
compare equal (no Python value of another runtime type equals a `str`). -/
def pyEqStr (v : PyVal) (lit : String) : Bool :=
  match v with
  | .str s => s == lit
  | _ => false

/-- Python `v is True` (identity with the `True` singleton). -/
def pyIsTrue : PyVal → Bool
  | .bool true => true
  | _ => false

/-- Name of a Python value's runtime type (`type(v).__name__`). -/
def pyTypeName : PyVal → String
  | .none => "NoneType"
  | .bool _ => "bool"
  | .int _ => "int"
  | .float _ => "float"
  | .str _ => "str"
  | .list _ => "list"
  | .dict _ => "dict"

/-- Embedding of `GroqService._check_type` (groq_service.py:169-182): maps
the declared type name to a Python class and tests `isinstance`.  Note that
in Python `isinstance(True, int)` holds (`bool` is a subclass of `int`), and
an unknown declared type name skips validation (returns `True`). -/
def _check_type (value : PyVal) (expected_type : String) : Bool :=
  match strToLower expected_type with
  | "string" =>
    match value with
    | .str _ => true
    | _ => false
  | "integer" =>
    match value with
    | .int _ => true
    | .bool _ => true
    | _ => false
  | "float" =>
    match value with
    | .float _ => true
    | _ => false
  | "boolean" =>
    match value with
    | .bool _ => true
    | _ => false
  | _ => true

/-- One entry of a schema mapping's `validation_rules` dict
(`rules.get("required", False)`, `rules.get("type")`, `rules.get("pattern")`). -/
structure Rule where
  required : PyVal := PyVal.bool false
  type? : Option String := Option.none
  pattern? : Option String := Option.none

/-- Result dict of `validate_extracted_data`. -/
structure ValidationResult where
  is_valid : Bool
  errors : List String
  warnings : List String

/-- Contribution of one iteration of the `for field, rules in
validation_rules.items()` loop of `validate_extracted_data`
(groq_service.py:141-161): the (errors, warnings) appended for this field.
`rmatch` is the oracle for `re.match`. -/
def fieldCheck (rmatch : String → String → Bool)
    (extracted_data : List (String × PyVal)) (field : String) (r : Rule) :
    List String × List String :=
  let value := lookupVal extracted_data field
  if truthy r.required && !(truthy value) then
    (["Required field \x27" ++ field ++ "\x27 is missing"], [])
  else
    match value with
    | .none => ([], [])
    | _ =>
      let es :=
        match r.type? with
        | some t =>
          if _check_type value t then []
          else ["Field \x27" ++ field ++ "\x27 has invalid type. Expected " ++ t]
        | Option.none => []
      let ws :=
        match r.pattern? with
        | some p =>
          if rmatch p (pyStr value) then []
          else ["Field \x27" ++ field ++ "\x27 doesn\x27t match expected pattern"]
        | Option.none => []
      (es, ws)

/-- Embedding of `GroqService.validate_extracted_data`
(groq_service.py:123-167).  The Python loop only ever appends to `errors`
and `warnings`, so the final lists are the in-order concatenation of each
field's contribution; `is_valid = (errors is empty)`. -/
def validate_extracted_data (rmatch : String → String → Bool)
    (extracted_data : List (String × PyVal))
    (validation_rules : List (String × Rule)) : ValidationResult :=
  let errors :=
    validation_rules.flatMap fun fr => (fieldCheck rmatch extracted_data fr.1 fr.2).1
  let warnings :=
    validation_rules.flatMap fun fr => (fieldCheck rmatch extracted_data fr.1 fr.2).2
  { is_valid := errors.isEmpty, errors := errors, warnings := warnings }

/-- One entry of `BIOTRACK_REQUIRED_FIELDS` (biotrack_animal.py:64-198);
only the keys the embedded functions read are kept (`required`, `condition`,
`description`, plus the declared `type` for reference). -/
structure FieldConfig where
  ftype : String
  required : PyVal
  description : String
  condition : String := ""

/-- Embedding of the `BIOTRACK_REQUIRED_FIELDS` table
(biotrack_animal.py:64-198), in source order. -/
def BIOTRACK_REQUIRED_FIELDS : List (String × FieldConfig) :=
  [ ("category",
      { ftype := "string", required := .bool true,
        description := "Animal category" }),
    ("species",
      { ftype := "string", required := .bool true,
        description := "Animal species" }),
    ("birth_date",
      { ftype := "date", required := .bool true,
        description := "Animal\x27s birth date (required, use best guess if unknown)" }),
    ("sex",
      { ftype := "string", required := .bool true,
        description := "Animal\x27s sex" }),
    ("breed_composition",
      { ftype := "object", required := .bool true,
        description := "Breed composition (must sum to 100%)" }),
    ("ear_tag",
      { ftype := "string", required := .str "conditional",
        description := "Animal\x27s ear tag (must be unique)",
        condition := "if Bio ID is primary ID type" }),
    ("rfid",
      { ftype := "string", required := .str "conditional",
        description := "Animal\x27s RFID (15-20 digit number)",
        condition := "if RFID is primary ID type" }),
    ("herd_letter",
      { ftype := "string", required := .str "conditional",
        description := "Herd letter from account",
        condition := "if Bio ID is primary ID type and not using one-time herd letter" }),
    ("one_time_herd_letter",
      { ftype := "string", required := .str "conditional",
        description := "One-time herd letter for purchased animals",
        condition := "if Bio ID is primary ID type and animal not in ownership" }),
    ("birth_season",
      { ftype := "string", required := .str "conditional",
        description := "Birth season (e.g., 2022 or January 2022)",
        condition := "for newborn animals" }),
    ("location",
      { ftype := "string", required := .bool true,
        description := "Current location of the animal" }),
    ("registration_name",
      { ftype := "string", required := .bool false,
        description := "Registration name (must be unique if provided)" }),
    ("registration_id",
      { ftype := "string", required := .bool false,
        description := "Registration ID (must be unique if provided)" }),
    ("born_as",
      { ftype := "string", required := .bool false,
        description := "Birth type" }),
    ("raised_as",
      { ftype := "string", required := .bool false,
        description := "Rearing type" }),
    ("birthing_ease",
      { ftype := "string", required := .bool false,
        description := "Birth difficulty classification" }),
    ("birth_weight",
      { ftype := "float", required := .bool false,
        description := "Weight at birth" }),
    ("birth_weight_uom",
      { ftype := "string", required := .str "conditional",
        description := "Unit of measure for birth weight",
        condition := "if birth_weight is provided" }),
    ("dam_id",
      { ftype := "string", required := .bool false,
        description := "ID of the animal\x27s dam (mother)" }),
    ("sire_id",
      { ftype := "string", required := .bool false,
        description := "ID of the animal\x27s sire (father)" }),
    ("colour",
      { ftype := "string", required := .bool false,
        description := "Animal\x27s colour" }),
    ("animal_comments",
      { ftype := "string", required := .bool false,
        description := "General comments about the animal" }) ]

/-- Python `field_name not in extracted_data or not extracted_data[field_name]`. -/
def absentOrFalsy (extracted_data : List (String × PyVal)) (field_name : String) : Bool :=
  match extracted_data.lookup field_name with
  | Option.none => true
  | some v => !truthy v

/-- Contribution of one iteration of the loop in
`get_missing_required_fields` (biotrack_animal.py:225-243).  Note the two
conditional checks are successive `if`s, not `elif`s, exactly as in the
source; `required is True` is Python identity with `True`, and
`required == "conditional"` is string equality. -/
def fieldMissingContribution (extracted_data : List (String × PyVal))
    (category : PyVal) (field_name : String) (field_config : FieldConfig) :
    List String :=
  if pyIsTrue field_config.required then
    if absentOrFalsy extracted_data field_name then [field_name] else []
  else if pyEqStr field_config.required "conditional" then
    let condition := strToLower field_config.condition
    (if containsSubstr condition "newborn" && pyEqStr category "Newborn Animal" then
      if absentOrFalsy extracted_data field_name then [field_name] else []
    else []) ++
    (if containsSubstr condition "birth_weight" && hasKey extracted_data "birth_weight" then
      if absentOrFalsy extracted_data field_name then [field_name] else []
    else [])
  else []

/-- Embedding of `get_missing_required_fields` (biotrack_animal.py:212-245):
the loop only appends, so the result is the in-order concatenation of each
configured field's contribution. -/
def get_missing_required_fields (extracted_data : List (String × PyVal))
    (category : PyVal) : List String :=
  BIOTRACK_REQUIRED_FIELDS.flatMap fun fc =>
    fieldMissingContribution extracted_data category fc.1 fc.2

/-- Embedding of `format_missing_fields_prompt` (biotrack_animal.py:248-271). -/
def format_missing_fields_prompt (missing_fields : List String) : String :=
  if missing_fields.isEmpty then ""
  else
    let field_descriptions := missing_fields.map fun field_name =>
      "- " ++ (match BIOTRACK_REQUIRED_FIELDS.lookup field_name with
               | some cfg => cfg.description
               | Option.none => field_name)
    "The following required information is missing from your recording:\n\n" ++
      String.intercalate "\n" field_descriptions ++
      "\n\nPlease provide these details."

/-- Result of a Python call: a returned value or a raised exception carrying
its `str(e)` message. -/
inductive Outcome (α : Type) where
  | ok (a : α)
  | exn (msg : String)

/-- Shape of the dict returned by
`GroqService.extract_data_from_transcription` (after `json.loads`, or its
catch-all error dict); the orchestrator reads it with `.get`, so every key
the code reads is an optional field here (`extracted_data` defaults to an
empty dict at both use sites). -/
structure ExtractionResult where
  entity_type : Option String := Option.none
  confidence : Option String := Option.none
  extracted_data : List (String × PyVal) := []
  error : Option String := Option.none

/-- Python `result.get("error") and "rate" in result.get("error", "").lower()`. -/
def rateErrorResult (r : ExtractionResult) : Bool :=
  match r.error with
  | some e => (e ≠ "" : Bool) && containsSubstr (strToLower e) "rate"
  | Option.none => false

/-- Dict returned by `extract_with_retry` after its loop
(groq_service.py:229-234). -/
def maxRetriesExceededResult : ExtractionResult :=
  { entity_type := some "unknown", confidence := some "LOW",
    extracted_data := [],
    error := some "Max retries exceeded due to rate limiting" }

/-- Embedding of the `for attempt in range(max_retries)` loop of
`extract_with_retry` (groq_service.py:203-234), structurally recursive on
the remaining iteration count.  `attempts i` is the outcome of the `i`-th
call to `extract_data_from_transcription`.  Returns the loop's outcome (a
returned result dict or a re-raised exception) together with the list of
backoff sleep durations (`2 ** attempt`) performed, in order.  The
`max retries exceeded` dict after the loop is returned only when the range
is exhausted, exactly as in the source. -/
def extractLoop (attempts : Nat → Outcome ExtractionResult)
    (max_retries : Nat) : Nat → Nat → Outcome ExtractionResult × List Nat
  | 0, _ => (.ok maxRetriesExceededResult, [])
  | fuel + 1, attempt =>
    match attempts attempt with
    | .ok result =>
      if rateErrorResult result && attempt + 1 < max_retries then
        let rest := extractLoop attempts max_retries fuel (attempt + 1)
        (rest.1, 2 ^ attempt :: rest.2)
      else (.ok result, [])
    | .exn msg =>
      if containsSubstr (strToLower msg) "rate" && attempt + 1 < max_retries then
        let rest := extractLoop attempts max_retries fuel (attempt + 1)
        (rest.1, 2 ^ attempt :: rest.2)
      else (.exn msg, [])

/-- Embedding of `GroqService.extract_with_retry` (groq_service.py:184-234),
parametrised by the per-attempt outcomes of the wrapped extraction call. -/
def extract_with_retry (attempts : Nat → Outcome ExtractionResult)
    (max_retries : Nat) : Outcome ExtractionResult × List Nat :=
  extractLoop attempts max_retries max_retries 0

/-- Python dict assignment `d[k] = v` (update the existing binding in place,
else append at the end; keys of a Python dict are unique). -/
def dictSet : List (String × PyVal) → String → PyVal → List (String × PyVal)
  | [], k, v => [(k, v)]
  | (k', v') :: rest, k, v =>
    if k' == k then (k', v) :: rest else (k', v') :: dictSet rest k v

/-- Embedding of the field-mapping step of the orchestrator
(recording_processor.py:343-347): iterate over the mapping table and copy
each extracted value under its destination key. -/
def map_fields (extracted_data : List (String × PyVal))
    (field_mappings : List (String × String)) : List (String × PyVal) :=
  field_mappings.foldl
    (fun acc p =>
      if hasKey extracted_data p.1 then
        dictSet acc p.2 (lookupVal extracted_data p.1)
      else acc)
    []

/-- Embedding of the `RecordingStatus` enum (recording.py:14-22); note the
source enum also declares a `PROCESSED` member, which no code ever assigns. -/
inductive RecordingStatus where
  | uploaded
  | transcribing
  | transcribed
  | processing
  | processed
  | synced
  | failed
  deriving DecidableEq

/-- Persisted state of one `Recording` row, restricted to the columns the
orchestrator and the reprocess endpoint read or write (recording.py:25-58).
`processed_at` is modelled as a flag recording whether the timestamp was
set. -/
structure RecordingState where
  status : RecordingStatus
  file_path : Option String
  filename : String
  client_id : String
  created_at : Nat
  transcription_text : Option String
  transcription_confidence : Option String
  entity_type : Option String
  extracted_data : Option ExtractionResult
  confidence_score : Option String
  dynamics_record_id : Option String
  sync_error : Option String
  processed_at : Bool

/-- Dict returned by `transcribe_audio` as the orchestrator reads it:
`.get("success")` truthiness, `["text"]`, `["confidence"]`, `.get("error")`. -/
structure TranscriptionResult where
  success : Bool
  text : String
  confidence : String
  error : Option String

/-- One `SchemaMapping` row as the orchestrator reads it
(recording_processor.py:248-272, 318-322, 331-364). -/
structure SchemaMapping where
  entity_name : String
  dynamics_entity_name : String
  field_mappings : List (String × String)
  validation_rules : List (String × Rule)
  detection_keywords : List String
  is_active : Bool

/-- Outcomes of the external calls one pipeline run performs: the storage
download, the transcription call, the tenant's schema-mapping rows, the
per-attempt extraction outcomes fed to `extract_with_retry`, the regex
oracle used by `validate_extracted_data`, and the Dynamics `create_record`
call (a function of the entity name and payload sent).  Exceptions carry
their `str(e)` message. -/
structure Env where
  storage : Outcome Unit
  transcription : Outcome TranscriptionResult
  schema_mappings : List SchemaMapping
  extract_attempts : Nat → Outcome ExtractionResult
  rmatch : String → String → Bool
  dynamics : String → List (String × PyVal) → Outcome String

/-- State committed by the generic `except` handler of `process_recording`
(recording_processor.py:373-377): status `FAILED`, `sync_error = str(e)`,
all other in-memory mutations made so far are committed along with it. -/
def failedWith (s : RecordingState) (msg : String) : RecordingState :=
  { s with status := .failed, sync_error := some msg }

/-- Python `f"{x}"` on an optional string (`None` prints as `"None"`). -/
def fmtOpt : Option String → String
  | Option.none => "None"
  | some s => s

/-- Python `not recording.file_path` (absent or empty path). -/
def noFilePath : Option String → Bool
  | Option.none => true
  | some s => s == ""

/-- Step 5 of the pipeline (recording_processor.py:351-371): call
`DynamicsClient.create_record`; on an exception the generic handler commits
`FAILED`, on success commit `dynamics_record_id`, `SYNCED` and
`processed_at`. -/
def stepDynamics (s : RecordingState) (env : Env)
    (entity_name : String) (dynamics_data : List (String × PyVal)) :
    List RecordingState :=
  match env.dynamics entity_name dynamics_data with
  | .exn m => [failedWith s m]
  | .ok record_id =>
    [{ s with dynamics_record_id := some record_id, status := .synced,
               processed_at := true }]

/-- Validation and field mapping against the matching schema
(recording_processor.py:330-349): on validation errors commit `FAILED` with
the joined error list, otherwise build the Dynamics payload from the
mapping table and proceed to the Dynamics call. -/
def stepValidateMap (s : RecordingState) (env : Env)
    (matching_schema : SchemaMapping) (extracted_data : List (String × PyVal)) :
    List RecordingState :=
  if !(validate_extracted_data env.rmatch extracted_data
        matching_schema.validation_rules).is_valid then
    [failedWith s ("Validation errors: " ++
      String.intercalate ", "
        (validate_extracted_data env.rmatch extracted_data
          matching_schema.validation_rules).errors)]
  else
    stepDynamics s env matching_schema.dynamics_entity_name
      (map_fields extracted_data matching_schema.field_mappings)

/-- Schema-mapping selection (recording_processor.py:318-328): the first
active mapping whose `entity_name` equals the extracted entity type (a
`None` entity type matches nothing and is formatted as `"None"`). -/
def stepMatchSchema (s : RecordingState) (env : Env)
    (active_mappings : List SchemaMapping) (entity_type : Option String)
    (extracted_data : List (String × PyVal)) : List RecordingState :=
  match active_mappings.find? fun sm =>
      match entity_type with
      | some et => sm.entity_name == et
      | Option.none => false with
  | Option.none =>
    [failedWith s ("No schema mapping found for entity type: " ++ fmtOpt entity_type)]
  | some matching_schema => stepValidateMap s env matching_schema extracted_data

/-- State committed on the `"unknown"` entity type
(recording_processor.py:285-291): `FAILED`, the fixed message, and the raw
extraction result stored for diagnostics. -/
def failedUnknownEntity (s : RecordingState)
    (extraction_result : ExtractionResult) : RecordingState :=
  { s with status := .failed,
           sync_error := some "Could not determine entity type from transcription",
           extracted_data := some extraction_result }

/-- In-memory mutations of recording_processor.py:293-295: entity type, raw
extraction result and confidence (`.get("confidence", "LOW")`). -/
def updateAfterExtraction (s : RecordingState)
    (extraction_result : ExtractionResult) : RecordingState :=
  { s with entity_type := extraction_result.entity_type,
           extracted_data := some extraction_result,
           confidence_score := some (extraction_result.confidence.getD "LOW") }

/-- State committed when bioTrack required fields are missing
(recording_processor.py:303-309). -/
def failedMissingFields (s4 : RecordingState) (missing_fields : List String) :
    RecordingState :=
  { s4 with sync_error := some (format_missing_fields_prompt missing_fields),
            status := .failed }

/-- Extraction and the domain required-field check
(recording_processor.py:274-313): run `extract_with_retry`; a raised
exception is caught by the generic handler; an `"unknown"` entity type
commits `FAILED` storing the raw result; missing bioTrack required fields
commit `FAILED` with the formatted prompt; otherwise the extraction output
is committed and the run proceeds to schema matching.  (The Python locals
`entity_type`, `extracted_data`, `missing_fields` are inlined.) -/
def stepExtraction (s : RecordingState) (env : Env)
    (active_mappings : List SchemaMapping) : List RecordingState :=
  match (extract_with_retry env.extract_attempts 3).1 with
  | .exn m => [failedWith s m]
  | .ok extraction_result =>
    if extraction_result.entity_type = some "unknown" then
      [failedUnknownEntity s extraction_result]
    else
      if !(get_missing_required_fields extraction_result.extracted_data
            (lookupVal extraction_result.extracted_data "category")).isEmpty then
        [failedMissingFields (updateAfterExtraction s extraction_result)
          (get_missing_required_fields extraction_result.extracted_data
            (lookupVal extraction_result.extracted_data "category"))]
      else
        updateAfterExtraction s extraction_result ::
          stepMatchSchema (updateAfterExtraction s extraction_result) env
            active_mappings extraction_result.entity_type
            extraction_result.extracted_data

/-- Status write of recording_processor.py:244 (`PROCESSING`). -/
def setProcessing (s : RecordingState) : RecordingState :=
  { s with status := .processing }

/-- Step 3 of the pipeline (recording_processor.py:242-261): commit
`PROCESSING`, load the client's active schema mappings, fail when none are
configured, else run extraction. -/
def stepProcessing (s : RecordingState) (env : Env) : List RecordingState :=
  if (env.schema_mappings.filter (·.is_active)).isEmpty then
    [setProcessing s,
     failedWith (setProcessing s) "No schema mappings configured for this client"]
  else
    setProcessing s ::
      stepExtraction (setProcessing s) env (env.schema_mappings.filter (·.is_active))

/-- Mutations of recording_processor.py:235-237: transcript, its confidence
and the `TRANSCRIBED` status, committed together. -/
def updateAfterTranscription (s1 : RecordingState)
    (tr : TranscriptionResult) : RecordingState :=
  { s1 with transcription_text := some tr.text,
            transcription_confidence := some tr.confidence,
            status := .transcribed }

/-- Step 2 of the pipeline (recording_processor.py:226-240): call the
transcription service; an exception is caught by the generic handler; an
unsuccessful result commits `FAILED` with the reported error; on success
commit the transcript, its confidence and `TRANSCRIBED`. -/
def stepTranscribe (s1 : RecordingState) (env : Env) : List RecordingState :=
  match env.transcription with
  | .exn m => [failedWith s1 m]
  | .ok tr =>
    if !tr.success then
      [failedWith s1 ("Transcription failed: " ++ fmtOpt tr.error)]
    else
      updateAfterTranscription s1 tr ::
        stepProcessing (updateAfterTranscription s1 tr) env

/-- Status write of recording_processor.py:215 (`TRANSCRIBING`). -/
def setTranscribing (rec0 : RecordingState) : RecordingState :=
  { rec0 with status := .transcribing }

/-- Embedding of `process_recording` (recording_processor.py:106-377) for a
recording that exists, as the list of state snapshots it commits, in order.
`client` is the looked-up `Client` row: when it is missing the worker logs
and returns without committing anything (recording_processor.py:199-201).
A missing or empty `file_path` raises `ValueError("No file path found for
recording")`, caught by the generic handler; so is a storage-download
exception.  Every other path commits `TRANSCRIBING` first and proceeds
through the stages above.  Totality of this function is the model of the
propagation policy: no exception escapes the worker. -/
def process_recording (rec0 : RecordingState) (client : Option Unit)
    (env : Env) : List RecordingState :=
  match client with
  | Option.none => []
  | some _ =>
    if noFilePath rec0.file_path then
      [failedWith rec0 "No file path found for recording"]
    else
      match env.storage with
      | .exn m => [failedWith rec0 m]
      | .ok _ =>
        setTranscribing rec0 :: stepTranscribe (setTranscribing rec0) env

/-- Embedding of the state reset performed by `reprocess_recording`
(recordings.py:297-323) on a recording that exists: set status back to
`UPLOADED`, clear `sync_error`, commit, and only then re-trigger the
pipeline (the pipeline run starts from exactly this returned state). -/
def reprocess_recording (recording : RecordingState) : RecordingState :=
  { recording with status := .uploaded, sync_error := Option.none }

/-! ## Specification-side notions used by the claims -/

/-- Status values named by §8 / C1 (the source enum's `PROCESSED` member is
not among them; no code ever assigns it). -/
def specStatuses : List RecordingStatus :=
  [.uploaded, .transcribing, .transcribed, .processing, .synced, .failed]

/-- Directed edges of the §4.4 state machine (a pipeline run's edges:
forward one stage at a time, plus `FAILED` from every non-terminal state;
the explicit reprocess reset is the separate `reprocess_recording`). -/
def spec44_edge : RecordingStatus → RecordingStatus → Bool
  | .uploaded, .transcribing => true
  | .transcribing, .transcribed => true
  | .transcribed, .processing => true
  | .processing, .synced => true
  | .uploaded, .failed => true
  | .transcribing, .failed => true
  | .transcribed, .failed => true
  | .processing, .failed => true
  | _, _ => false

/-- Two consecutive committed snapshots either keep the status or move
along one §4.4 edge. -/
def edgeOrStay (a b : RecordingStatus) : Bool :=
  a == b || spec44_edge a b

/-- The committed snapshots, starting from status `prev`, only ever move
along §4.4 edges. -/
def chainFrom (prev : RecordingStatus) : List RecordingState → Bool
  | [] => true
  | s :: rest => edgeOrStay prev s.status && chainFrom s.status rest

/-- The failure message is present and non-empty. -/
def errNonEmpty (s : RecordingState) : Bool :=
  match s.sync_error with
  | some m => m ≠ ""
  | Option.none => false

/-- Per-snapshot invariant of C1: the status is one of the six §4.4
statuses, `SYNCED` implies the Dynamics record id is set, and `FAILED`
implies a non-empty error message. -/
def stateInvB (s : RecordingState) : Bool :=
  specStatuses.contains s.status &&
  (match s.status with
   | .synced => s.dynamics_record_id.isSome
   | _ => true) &&
  (match s.status with
   | .failed => errNonEmpty s
   | _ => true)

/-- Terminal status per the glossary: `SYNCED` or `FAILED`. -/
def terminalStatus (st : RecordingStatus) : Bool :=
  st == .synced || st == .failed

/-- Well-formed environment: every exception raised by an external call
carries a non-empty `str(e)` message (every exception message appearing in
the repository itself is a non-empty literal). -/
def Env.wf (env : Env) : Prop :=
  (∀ m, env.storage = .exn m → m ≠ "") ∧
  (∀ m, env.transcription = .exn m → m ≠ "") ∧
  (∀ i m, env.extract_attempts i = .exn m → m ≠ "") ∧
  (∀ en dd m, env.dynamics en dd = .exn m → m ≠ "")

/-- One step of the field-mapping fold. -/
def mapFieldsStep (extracted_data : List (String × PyVal))
    (acc : List (String × PyVal)) (p : String × String) :
    List (String × PyVal) :=
  if hasKey extracted_data p.1 then
    dictSet acc p.2 (lookupVal extracted_data p.1)
  else acc

/-- Extraction result mimicking the catch-all error dict that
`extract_data_from_transcription` returns when the Groq call raises a
rate-limit error (groq_service.py:93-100). -/
def rateLimitedResult : ExtractionResult :=
  { entity_type := some "unknown", confidence := some "LOW",
    extracted_data := [], error := some "rate limit exceeded" }

/-- Modelled from the spec's words for C6: validation "fails exactly when
the value's runtime type is not that type ... exact with no coercion
between types" — exact runtime-type match for the four declared names. -/
def exactTypeMatch (v : PyVal) (tn : String) : Bool :=
  match tn with
  | "string" => match v with | .str _ => true | _ => false
  | "integer" => match v with | .int _ => true | _ => false
  | "float" => match v with | .float _ => true | _ => false
  | "boolean" => match v with | .bool _ => true | _ => false
  | _ => false

/-- A terminal committed snapshot: `SYNCED`, or `FAILED` with the failure
recorded on the job. -/
def terminalSnapshot (t : RecordingState) : Prop :=
  t.status = .synced ∨ (t.status = .failed ∧ t.sync_error.isSome)

/-! ## Concrete fixtures for the witnesses -/

/-- Transcription-service result for the witness runs. -/
def sampleTranscription : TranscriptionResult :=
  { success := true, text := "Add new heifer, ear tag 12345, born 2024-01-15",
    confidence := "HIGH", error := Option.none }

/-- An extraction result with every bioTrack-required field present. -/
def sampleExtraction : ExtractionResult :=
  { entity_type := some "animal", confidence := some "HIGH",
    extracted_data :=
      [("category", .str "Mature Animal"), ("species", .str "Beef Cattle"),
       ("birth_date", .str "2024-01-15"), ("sex", .str "Heifer"),
       ("breed_composition", .dict [("Hereford", .int 100)]),
       ("location", .str "North Field"), ("ear_tag", .str "12345")] }

/-- An extraction result missing most bioTrack-required fields. -/
def missingFieldsExtraction : ExtractionResult :=
  { entity_type := some "animal", confidence := some "HIGH",
    extracted_data := [("ear_tag", .str "12345")] }

/-- A tenant schema mapping for the `animal` entity. -/
def sampleMapping : SchemaMapping :=
  { entity_name := "animal", dynamics_entity_name := "bt_animals",
    field_mappings := [("ear_tag", "bt_ear_tag"), ("species", "bt_species")],
    validation_rules :=
      [("ear_tag", { required := .bool true, type? := some "string" })],
    detection_keywords := ["animal", "cow"], is_active := true }

/-- Environment in which every external call succeeds. -/
def sampleEnv : Env :=
  { storage := .ok (), transcription := .ok sampleTranscription,
    schema_mappings := [sampleMapping],
    extract_attempts := fun _ => .ok sampleExtraction,
    rmatch := fun _ _ => true,
    dynamics := fun _ _ => .ok "dyn-rec-001" }

/-- Same environment, but extraction misses required fields. -/
def missingFieldsEnv : Env :=
  { sampleEnv with extract_attempts := fun _ => .ok missingFieldsExtraction }

/-- A freshly uploaded recording. -/
def sampleRec : RecordingState :=
  { status := .uploaded, file_path := some "recordings/a.wav",
    filename := "a.wav", client_id := "client-1", created_at := 0,
    transcription_text := Option.none, transcription_confidence := Option.none,
    entity_type := Option.none, extracted_data := Option.none,
    confidence_score := Option.none, dynamics_record_id := Option.none,
    sync_error := Option.none, processed_at := false }

/-- A job that has already synced (for the reprocess witness). -/
def syncedRec : RecordingState :=
  { sampleRec with
    status := .synced,
    sync_error := some "old failure",
    dynamics_record_id := some "dyn-1" }

/-! ## Helper lemmas -/

theorem str_data_append (a b : String) : (a ++ b).data = a.data ++ b.data := by
  cases a
  cases b
  rfl

theorem str_append_ne_empty_left (a b : String) (h : a.data ≠ []) :
    a ++ b ≠ "" := by
  intro hc
  have h3 : (a ++ b).data = a.data ++ b.data := str_data_append a b
  rw [hc] at h3
  exact h (List.append_eq_nil.mp h3.symm).1

theorem str_append_ne_empty_right (a b : String) (h : b.data ≠ []) :
    a ++ b ≠ "" := by
  intro hc
  have h3 : (a ++ b).data = a.data ++ b.data := str_data_append a b
  rw [hc] at h3
  exact h (List.append_eq_nil.mp h3.symm).2

theorem format_missing_ne_empty (missing : List String)
    (h : missing ≠ []) : format_missing_fields_prompt missing ≠ "" := by
  unfold format_missing_fields_prompt
  rw [if_neg (by simpa using h)]
  exact str_append_ne_empty_right _ "\n\nPlease provide these details." (by decide)

/-- A raised outcome of the retry loop always originates from one of the
wrapped attempts (the loop itself only re-raises). -/
theorem extractLoop_exn_source (attempts : Nat → Outcome ExtractionResult)
    (max_retries : Nat) :
    ∀ fuel attempt m,
      (extractLoop attempts max_retries fuel attempt).1 = .exn m →
      ∃ i, attempts i = .exn m := by
  intro fuel
  induction fuel with
  | zero =>
    intro attempt m h
    simp [extractLoop] at h
  | succ n ih =>
    intro attempt m h
    cases ha : attempts attempt with
    | ok r =>
      simp only [extractLoop, ha] at h
      split at h
      · exact ih (attempt + 1) m (by simpa using h)
      · simp at h
    | exn msg =>
      simp only [extractLoop, ha] at h
      split at h
      · exact ih (attempt + 1) m (by simpa using h)
      · simp at h
        exact ⟨attempt, by rw [ha, h]⟩

theorem extract_with_retry_exn_source (attempts : Nat → Outcome ExtractionResult)
    (max_retries : Nat) (m : String)
    (h : (extract_with_retry attempts max_retries).1 = .exn m) :
    ∃ i, attempts i = .exn m := by
  exact extractLoop_exn_source attempts max_retries max_retries 0 m h

theorem lookup_dictSet (d : List (String × PyVal)) (k : String) (v : PyVal)
    (k' : String) :
    (dictSet d k v).lookup k' = if k' = k then some v else d.lookup k' := by
  induction d with
  | nil =>
    by_cases h : k' = k
    · subst h; simp [dictSet, List.lookup]
    · have hb : (k' == k) = false := by simpa using h
      simp [dictSet, List.lookup, hb, h]
  | cons hd tl ih =>
    obtain ⟨k1, v1⟩ := hd
    by_cases h1 : k1 = k
    · subst h1
      by_cases h2 : k' = k1
      · subst h2; simp [dictSet, List.lookup]
      · have hb : (k' == k1) = false := by simpa using h2
        simp [dictSet, List.lookup, hb, h2]
    · have hb1 : (k1 == k) = false := by simpa using h1
      by_cases h2 : k' = k1
      · subst h2
        simp [dictSet, List.lookup, hb1, h1]
      · have hb2 : (k' == k1) = false := by simpa using h2
        simp [dictSet, List.lookup, hb1, hb2, ih]

theorem map_fields_eq_foldl (e : List (String × PyVal))
    (m : List (String × String)) :
    map_fields e m = m.foldl (mapFieldsStep e) [] := rfl

theorem mapFields_fold_snd_notmem (e : List (String × PyVal)) :
    ∀ (m : List (String × String)) (acc : List (String × PyVal)) (d : String),
      (∀ p ∈ m, p.2 ≠ d) →
      (m.foldl (mapFieldsStep e) acc).lookup d = acc.lookup d := by
  intro m
  induction m with
  | nil => intro acc d _; rfl
  | cons p m' ih =>
    intro acc d hnd
    rw [List.foldl_cons]
    rw [ih _ d fun q hq => hnd q (List.mem_cons_of_mem p hq)]
    unfold mapFieldsStep
    split
    · rw [lookup_dictSet, if_neg fun hc => hnd p (List.mem_cons_self p m') hc.symm]
    · rfl

theorem mapFields_fold_no_contrib (e : List (String × PyVal)) :
    ∀ (m : List (String × String)) (acc : List (String × PyVal)) (d : String),
      (∀ a, (a, d) ∈ m → e.lookup a = Option.none) →
      (m.foldl (mapFieldsStep e) acc).lookup d = acc.lookup d := by
  intro m
  induction m with
  | nil => intro acc d _; rfl
  | cons p m' ih =>
    intro acc d hno
    obtain ⟨a1, d1⟩ := p
    rw [List.foldl_cons]
    rw [ih _ d fun a ha => hno a (List.mem_cons_of_mem _ ha)]
    unfold mapFieldsStep
    by_cases hd1 : d1 = d
    · subst hd1
      have : e.lookup a1 = Option.none := hno a1 (List.mem_cons_self _ _)
      simp [hasKey, this]
    · split
      · rw [lookup_dictSet, if_neg fun hc => hd1 hc.symm]
      · rfl

theorem mapFields_fold_contrib (e : List (String × PyVal)) :
    ∀ (m : List (String × String)) (acc : List (String × PyVal))
      (a d : String) (v : PyVal),
      ((m.map Prod.snd).Nodup) → (a, d) ∈ m → e.lookup a = some v →
      (m.foldl (mapFieldsStep e) acc).lookup d = some v := by
  intro m
  induction m with
  | nil => intro acc a d v _ hm; cases hm
  | cons p m' ih =>
    intro acc a d v hnd hm hl
    rw [List.foldl_cons]
    rcases List.mem_cons.mp hm with heq | htl
    · have hp2 : p.2 = d := by rw [← heq]
      have hp1 : p.1 = a := by rw [← heq]
      have hnotin : ∀ q ∈ m', q.2 ≠ d := by
        intro q hq hc
        have : p.2 ∈ m'.map Prod.snd := by
          rw [hp2, ← hc]; exact List.mem_map_of_mem Prod.snd hq
        exact (List.nodup_cons.mp (by simpa using hnd)).1 this
      rw [mapFields_fold_snd_notmem e m' _ d hnotin]
      unfold mapFieldsStep
      rw [hp1, hp2]
      simp [hasKey, hl, lookup_dictSet, lookupVal]
    · exact ih _ a d v (by simpa using (List.nodup_cons.mp (by simpa using hnd)).2)
        htl hl

theorem validate_errors_def (rm : String → String → Bool)
    (e : List (String × PyVal)) (rules : List (String × Rule)) :
    (validate_extracted_data rm e rules).errors =
      rules.flatMap fun fr => (fieldCheck rm e fr.1 fr.2).1 := rfl

theorem validate_warnings_def (rm : String → String → Bool)
    (e : List (String × PyVal)) (rules : List (String × Rule)) :
    (validate_extracted_data rm e rules).warnings =
      rules.flatMap fun fr => (fieldCheck rm e fr.1 fr.2).2 := rfl

theorem lookupVal_eq_of_lookup (e : List (String × PyVal)) (f : String)
    (v : PyVal) (h : e.lookup f = some v) : lookupVal e f = v := by
  simp [lookupVal, h]

/-- The error component of a field's check does not depend on the regex
oracle: only the warning component can mention a pattern. -/
theorem fieldCheck_errors_indep (rm rm' : String → String → Bool)
    (e : List (String × PyVal)) (f : String) (r : Rule) :
    (fieldCheck rm e f r).1 = (fieldCheck rm' e f r).1 := by
  cases hv : lookupVal e f <;> simp only [fieldCheck, hv] <;> split <;> rfl

/-! ## Claims -/

/-- Claim C4: an extractor whose first two attempts are classified
rate-limited and whose third attempt is not, run under the 3-attempt policy,
yields the third attempt's result and exactly two backoff sleeps of 1 and 2
time units (`2 ** attempt`, attempt counted from 0, slept only after
rate-limited failures). -/
theorem claim_C4 (attempts : Nat → Outcome ExtractionResult)
    (r0 r1 r2 : ExtractionResult)
    (h0 : attempts 0 = .ok r0) (h1 : attempts 1 = .ok r1)
    (h2 : attempts 2 = .ok r2)
    (hr0 : rateErrorResult r0 = true) (hr1 : rateErrorResult r1 = true)
    (hr2 : rateErrorResult r2 = false) :
    extract_with_retry attempts 3 = (.ok r2, [1, 2]) := by
  simp [extract_with_retry, extractLoop, h0, h1, h2, hr0, hr1, hr2]

/-- Witness for C4 at a concrete extractor. -/
theorem claim_C4_witness :
    extract_with_retry
      (fun i => if i ≤ 1 then
          .ok { error := some "Rate limit reached for model" }
        else .ok { entity_type := some "animal" }) 3 =
      (.ok { entity_type := some "animal" }, [1, 2]) :=
  claim_C4 _
    { error := some "Rate limit reached for model" }
    { error := some "Rate limit reached for model" }
    { entity_type := some "animal" }
    rfl rfl rfl (by rfl) (by rfl) (by rfl)

/-- Claim C3 (evidence of the divergence): when every one of the 3 attempts
returns a rate-limited extraction result, `extract_with_retry` returns the
third rate-limited result verbatim — its message is the provider's
rate-limit message, not one indicating that retries were exhausted; the
`Max retries exceeded due to rate limiting` dict after the loop is only
reachable when the attempt range is empty (`max_retries = 0`). -/
theorem claim_C3 :
    (extract_with_retry (fun _ => .ok rateLimitedResult) 3).1 =
      .ok rateLimitedResult ∧
    rateLimitedResult.error = some "rate limit exceeded" ∧
    rateLimitedResult.error ≠ some "Max retries exceeded due to rate limiting" ∧
    (extract_with_retry (fun _ => .exn "rate limit exceeded") 3).1 =
      .exn "rate limit exceeded" ∧
    (extract_with_retry (fun _ => .ok rateLimitedResult) 0).1 =
      .ok maxRetriesExceededResult := by
  refine ⟨rfl, rfl, by simp [rateLimitedResult], rfl, rfl⟩

/-- Claim C7: the field-mapping step copies, for every key of the extracted
dict that has an entry in the (duplicate-free) mapping table, its value
under the destination key; keys without an entry contribute nothing; and on
the spec's concrete example the result is exactly
`{"bt_ear_tag": "12345"}`. -/
theorem claim_C7 :
    (∀ (e : List (String × PyVal)) (m : List (String × String))
        (a d : String) (v : PyVal),
      ((m.map Prod.snd).Nodup) → (a, d) ∈ m → e.lookup a = some v →
      (map_fields e m).lookup d = some v) ∧
    (∀ (e : List (String × PyVal)) (m : List (String × String)) (d : String),
      (∀ a, (a, d) ∈ m → e.lookup a = Option.none) →
      (map_fields e m).lookup d = Option.none) ∧
    map_fields [("ear_tag", PyVal.str "12345"), ("unused", PyVal.str "x")]
        [("ear_tag", "bt_ear_tag")] =
      [("bt_ear_tag", PyVal.str "12345")] := by
  refine ⟨?_, ?_, rfl⟩
  · intro e m a d v hnd hm hl
    rw [map_fields_eq_foldl]
    exact mapFields_fold_contrib e m [] a d v hnd hm hl
  · intro e m d hno
    rw [map_fields_eq_foldl]
    rw [mapFields_fold_no_contrib e m [] d hno]
    rfl

/-- Witness for C7 at the spec's concrete example. -/
theorem claim_C7_witness :
    (map_fields [("ear_tag", PyVal.str "12345"), ("unused", PyVal.str "x")]
        [("ear_tag", "bt_ear_tag")]).lookup "bt_ear_tag" =
      some (PyVal.str "12345") :=
  claim_C7.1 _ _ "ear_tag" "bt_ear_tag" (PyVal.str "12345")
    (by simp) (by simp) (by rfl)

/-- Claim C9: `reprocess` on an existing job, whatever its current status,
resets the status to `UPLOADED` and clears the error, and leaves the job's
identity fields (file path, client id, created_at — and the stored filename)
unchanged; the pipeline is then re-triggered from exactly the reset state. -/
theorem claim_C9 (r : RecordingState) :
    (reprocess_recording r).status = .uploaded ∧
    (reprocess_recording r).sync_error = Option.none ∧
    (reprocess_recording r).file_path = r.file_path ∧
    (reprocess_recording r).client_id = r.client_id ∧
    (reprocess_recording r).created_at = r.created_at ∧
    (reprocess_recording r).filename = r.filename :=
  ⟨rfl, rfl, rfl, rfl, rfl, rfl⟩

/-- Witness for C9 on a concrete synced job. -/
theorem claim_C9_witness :
    (reprocess_recording syncedRec).status = .uploaded ∧
    (reprocess_recording syncedRec).sync_error = Option.none ∧
    (reprocess_recording syncedRec).file_path = syncedRec.file_path ∧
    (reprocess_recording syncedRec).client_id = syncedRec.client_id ∧
    (reprocess_recording syncedRec).created_at = syncedRec.created_at ∧
    (reprocess_recording syncedRec).filename = syncedRec.filename :=
  claim_C9 syncedRec

theorem validate_is_valid_def (rm : String → String → Bool)
    (e : List (String × PyVal)) (rules : List (String × Rule)) :
    (validate_extracted_data rm e rules).is_valid =
      (validate_extracted_data rm e rules).errors.isEmpty := rfl

/-- The whole error list is independent of the regex oracle. -/
theorem validate_errors_indep (rm rm' : String → String → Bool)
    (e : List (String × PyVal)) (rules : List (String × Rule)) :
    (validate_extracted_data rm e rules).errors =
      (validate_extracted_data rm' e rules).errors := by
  rw [validate_errors_def, validate_errors_def]
  induction rules with
  | nil => rfl
  | cons fr rest ih =>
    rw [List.flatMap_cons, List.flatMap_cons, ih,
      fieldCheck_errors_indep rm rm' e fr.1 fr.2]

/-- Claim C5: a pattern non-match contributes a warning and never an error
(the error list does not depend on the regex oracle at all), the validator's
`is_valid` equals "errors is empty", a run whose only findings are pattern
mismatches is valid with non-empty warnings, and the orchestrator's
validation gate lets any run with an empty error list proceed to field
mapping and the Dynamics call — warnings never block progress. -/
theorem claim_C5 :
    (∀ (rm rm' : String → String → Bool) (e : List (String × PyVal))
        (rules : List (String × Rule)),
      (validate_extracted_data rm e rules).errors =
        (validate_extracted_data rm' e rules).errors) ∧
    (∀ (rm : String → String → Bool) (e : List (String × PyVal))
        (rules : List (String × Rule)),
      (validate_extracted_data rm e rules).is_valid =
        (validate_extracted_data rm e rules).errors.isEmpty) ∧
    (∀ (rm : String → String → Bool) (e : List (String × PyVal))
        (rules : List (String × Rule)) (f : String) (r : Rule) (v : PyVal)
        (p : String),
      (f, r) ∈ rules → e.lookup f = some v → v ≠ PyVal.none →
      r.pattern? = some p → rm p (pyStr v) = false →
      (validate_extracted_data rm e rules).errors = [] →
      (validate_extracted_data rm e rules).is_valid = true ∧
        (validate_extracted_data rm e rules).warnings ≠ []) ∧
    (∀ (s : RecordingState) (env : Env) (sm : SchemaMapping)
        (ex : List (String × PyVal)),
      (validate_extracted_data env.rmatch ex sm.validation_rules).errors = [] →
      stepValidateMap s env sm ex =
        stepDynamics s env sm.dynamics_entity_name
          (map_fields ex sm.field_mappings)) := by
  refine ⟨validate_errors_indep, validate_is_valid_def, ?_, ?_⟩
  · intro rm e rules f r v p hmem hl hv hp hrm herr
    have hval : lookupVal e f = v := lookupVal_eq_of_lookup e f v hl
    have hcontrib : (fieldCheck rm e f r).1 = [] := by
      have h2 := List.flatMap_eq_nil_iff.mp
        (by rw [← validate_errors_def]; exact herr) (f, r) hmem
      exact h2
    have hreq : (truthy r.required && !truthy v) = false := by
      rcases Bool.eq_false_or_eq_true (truthy r.required && !truthy v) with h | h
      · exfalso
        have hfc : (fieldCheck rm e f r).1 =
            ["Required field \x27" ++ f ++ "\x27 is missing"] := by
          simp only [fieldCheck, hval]
          rw [if_pos h]
        rw [hfc] at hcontrib
        cases hcontrib
      · exact h
    have hws : ("Field \x27" ++ f ++ "\x27 doesn\x27t match expected pattern") ∈
        (fieldCheck rm e f r).2 := by
      cases v with
      | none => exact absurd rfl hv
      | bool b => simp [fieldCheck, hval, hreq, hp, hrm]
      | int n => simp [fieldCheck, hval, hreq, hp, hrm]
      | float q => simp [fieldCheck, hval, hreq, hp, hrm]
      | str s => simp [fieldCheck, hval, hreq, hp, hrm]
      | list xs => simp [fieldCheck, hval, hreq, hp, hrm]
      | dict xs => simp [fieldCheck, hval, hreq, hp, hrm]
    refine ⟨by rw [validate_is_valid_def, herr]; rfl, ?_⟩
    have : ("Field \x27" ++ f ++ "\x27 doesn\x27t match expected pattern") ∈
        (validate_extracted_data rm e rules).warnings := by
      rw [validate_warnings_def]
      exact List.mem_flatMap.mpr ⟨(f, r), hmem, hws⟩
    exact List.ne_nil_of_mem this
  · intro s env sm ex herr
    have hv : (validate_extracted_data env.rmatch ex sm.validation_rules).is_valid
        = true := by rw [validate_is_valid_def, herr]; rfl
    simp [stepValidateMap, hv]

/-- Witness for C5 at a concrete pattern mismatch (the spec's §8 rfid
example, with the regex oracle rejecting the value). -/
theorem claim_C5_witness :
    (validate_extracted_data (fun _ _ => false) [("rfid", PyVal.str "abc")]
        [("rfid", { type? := some "string", pattern? := some "^d+$" })]).is_valid
      = true ∧
    (validate_extracted_data (fun _ _ => false) [("rfid", PyVal.str "abc")]
        [("rfid", { type? := some "string", pattern? := some "^d+$" })]).warnings
      ≠ [] :=
  claim_C5.2.2.1 (fun _ _ => false) [("rfid", PyVal.str "abc")]
    [("rfid", { type? := some "string", pattern? := some "^d+$" })]
    "rfid" { type? := some "string", pattern? := some "^d+$" }
    (PyVal.str "abc") "^d+$"
    (by simp) (by rfl) (by simp) (by rfl) (by rfl) (by rfl)


/-- Counterexample to C6 as stated: a boolean value under a declared
`integer` type passes `_check_type` (Python's `bool` is a subclass of
`int`, so `isinstance(True, int)` holds) and produces no validation error,
although its runtime type is not `integer`. -/
theorem claim_C6_counterexample :
    _check_type (PyVal.bool true) "integer" = true ∧
    exactTypeMatch (PyVal.bool true) "integer" = false ∧
    (validate_extracted_data (fun _ _ => true) [("castrated", PyVal.bool true)]
        [("castrated", { type? := some "integer" })]).errors = [] ∧
    (validate_extracted_data (fun _ _ => true) [("castrated", PyVal.bool true)]
        [("castrated", { type? := some "integer" })]).is_valid = true :=
  ⟨rfl, rfl, rfl, rfl⟩

/-- Claim C6 (amended): for a declared type among string/integer/float/
boolean, `_check_type` accepts a present value exactly when its runtime
type matches the declared one, except that boolean values are additionally
accepted where `integer` is declared (the `isinstance` bool-int subtyping);
and for a present non-`None` value under such a rule the validator reports
an error exactly when `_check_type` rejects. -/
theorem claim_C6 :
    (∀ (v : PyVal) (t : String),
      (strToLower t = "string" ∨ strToLower t = "integer" ∨
        strToLower t = "float" ∨ strToLower t = "boolean") →
      (_check_type v t = true ↔
        (exactTypeMatch v (strToLower t) = true ∨
          (strToLower t = "integer" ∧ exactTypeMatch v "boolean" = true)))) ∧
    (∀ (rm : String → String → Bool) (f : String) (v : PyVal) (t : String),
      v ≠ PyVal.none →
      ((validate_extracted_data rm [(f, v)] [(f, { type? := some t })]).errors
          = [] ↔ _check_type v t = true)) := by
  constructor
  · intro v t ht
    unfold _check_type exactTypeMatch
    rcases ht with h | h | h | h <;> rw [h] <;> cases v <;> simp
  · intro rm f v t hv
    have hval : lookupVal [(f, v)] f = v := by
      simp [lookupVal, List.lookup]
    have herrs : (validate_extracted_data rm [(f, v)]
        [(f, { type? := some t })]).errors =
        if _check_type v t then []
        else ["Field \x27" ++ f ++ "\x27 has invalid type. Expected " ++ t] := by
      rw [validate_errors_def]
      cases v with
      | none => exact absurd rfl hv
      | bool b => simp [fieldCheck, hval, truthy]
      | int n => simp [fieldCheck, hval, truthy]
      | float q => simp [fieldCheck, hval, truthy]
      | str s => simp [fieldCheck, hval, truthy]
      | list xs => simp [fieldCheck, hval, truthy]
      | dict xs => simp [fieldCheck, hval, truthy]
    rw [herrs]
    by_cases hc : _check_type v t = true
    · simp [hc]
    · simp [hc]

/-- Witness for C6 at concrete inputs on both conjuncts. -/
theorem claim_C6_witness :
    (_check_type (PyVal.int 3) "integer" = true ↔
      (exactTypeMatch (PyVal.int 3) (strToLower "integer") = true ∨
        (strToLower "integer" = "integer" ∧
          exactTypeMatch (PyVal.int 3) "boolean" = true))) ∧
    ((validate_extracted_data (fun _ _ => true) [("sex", PyVal.str "Cow")]
        [("sex", { type? := some "string" })]).errors = [] ↔
      _check_type (PyVal.str "Cow") "string" = true) :=
  ⟨claim_C6.1 (PyVal.int 3) "integer" (Or.inr (Or.inl (by rfl))),
   claim_C6.2 (fun _ _ => true) "sex" (PyVal.str "Cow") "string" (by simp)⟩

theorem absentOrFalsy_eq_not_truthy (d : List (String × PyVal)) (f : String) :
    absentOrFalsy d f = !truthy (lookupVal d f) := by
  cases h : d.lookup f <;> simp [absentOrFalsy, lookupVal, h, truthy]

/-- Claim C10: in both required-field checks — the rule-based validator and
the bioTrack domain check — a present field whose value is Python-falsy
(`None`, `""`, `0`, `False`, an empty collection) is treated exactly like an
absent field and reported as missing, for every rule with `required = true`
(the hypothesis `truthy (lookupVal …) = false` covers both the absent and
the present-but-falsy cases uniformly). -/
theorem claim_C10 :
    (∀ (rm : String → String → Bool) (e : List (String × PyVal))
        (rules : List (String × Rule)) (f : String) (r : Rule),
      (f, r) ∈ rules → r.required = PyVal.bool true →
      truthy (lookupVal e f) = false →
      ("Required field \x27" ++ f ++ "\x27 is missing") ∈
        (validate_extracted_data rm e rules).errors) ∧
    (∀ (data : List (String × PyVal)) (category : PyVal)
        (f : String) (cfg : FieldConfig),
      (f, cfg) ∈ BIOTRACK_REQUIRED_FIELDS → cfg.required = PyVal.bool true →
      truthy (lookupVal data f) = false →
      f ∈ get_missing_required_fields data category) := by
  constructor
  · intro rm e rules f r hmem hreq htr
    have hcond : (truthy r.required && !truthy (lookupVal e f)) = true := by
      rw [hreq, htr]; rfl
    have hcontrib : (fieldCheck rm e f r).1 =
        ["Required field \x27" ++ f ++ "\x27 is missing"] := by
      simp only [fieldCheck]
      rw [if_pos hcond]
    rw [validate_errors_def]
    exact List.mem_flatMap.mpr ⟨(f, r), hmem,
      by rw [hcontrib]; exact List.mem_singleton_self _⟩
  · intro data category f cfg hmem hreq htr
    have habs : absentOrFalsy data f = true := by
      rw [absentOrFalsy_eq_not_truthy, htr]; rfl
    have hcontrib : fieldMissingContribution data category f cfg = [f] := by
      unfold fieldMissingContribution
      rw [hreq]
      simp [pyIsTrue, habs]
    unfold get_missing_required_fields
    exact List.mem_flatMap.mpr ⟨(f, cfg), hmem,
      by rw [hcontrib]; exact List.mem_singleton_self _⟩

/-- Witness for C10: an absent `birth_date` (the spec's §8 example) and a
present-but-empty `category` are both reported as missing. -/
theorem claim_C10_witness :
    ("Required field \x27" ++ "birth_date" ++ "\x27 is missing") ∈
      (validate_extracted_data (fun _ _ => true) []
        [("birth_date", { required := PyVal.bool true, type? := some "date" })]).errors ∧
    "category" ∈
      get_missing_required_fields [("category", PyVal.str "")] PyVal.none :=
  ⟨claim_C10.1 (fun _ _ => true) []
      [("birth_date", { required := PyVal.bool true, type? := some "date" })]
      "birth_date" { required := PyVal.bool true, type? := some "date" }
      (by simp) rfl (by rfl),
   claim_C10.2 [("category", PyVal.str "")] PyVal.none "category"
      { ftype := "string", required := .bool true,
        description := "Animal category" }
      (by simp [BIOTRACK_REQUIRED_FIELDS]) rfl (by rfl)⟩

/-! ## Stage lemmas for the orchestrator -/

theorem stepDynamics_chain_inv (s : RecordingState) (env : Env)
    (en : String) (dd : List (String × PyVal))
    (hs : s.status = .processing)
    (hw : ∀ m, env.dynamics en dd = .exn m → m ≠ "") :
    chainFrom s.status (stepDynamics s env en dd) = true ∧
    (stepDynamics s env en dd).all stateInvB = true := by
  rw [hs]
  unfold stepDynamics
  cases hd : env.dynamics en dd with
  | exn m =>
    have hm := hw m hd
    constructor
    · simp [chainFrom, edgeOrStay, spec44_edge, failedWith]
    · simp [stateInvB, failedWith, errNonEmpty, specStatuses, hm]
  | ok rid =>
    constructor
    · simp [chainFrom, edgeOrStay, spec44_edge]
    · simp [stateInvB, specStatuses]

theorem stepValidateMap_chain_inv (s : RecordingState) (env : Env)
    (sm : SchemaMapping) (ex : List (String × PyVal))
    (hs : s.status = .processing)
    (hw : ∀ m, env.dynamics sm.dynamics_entity_name (map_fields ex sm.field_mappings) = .exn m → m ≠ "") :
    chainFrom s.status (stepValidateMap s env sm ex) = true ∧
    (stepValidateMap s env sm ex).all stateInvB = true := by
  unfold stepValidateMap
  by_cases hv : (validate_extracted_data env.rmatch ex sm.validation_rules).is_valid
  · simp only [hv, Bool.not_true, Bool.false_eq_true, if_false]
    exact stepDynamics_chain_inv s env sm.dynamics_entity_name
      (map_fields ex sm.field_mappings) hs hw
  · rw [hs]
    have hb : (!(validate_extracted_data env.rmatch ex sm.validation_rules).is_valid) = true := by
      simp [Bool.eq_false_iff.mpr hv]
    simp only [hb, if_true]
    have hm : ("Validation errors: " ++
        String.intercalate ", "
          (validate_extracted_data env.rmatch ex sm.validation_rules).errors) ≠ "" :=
      str_append_ne_empty_left _ _ (by decide)
    constructor
    · simp [chainFrom, edgeOrStay, spec44_edge, failedWith]
    · simp [stateInvB, failedWith, errNonEmpty, specStatuses, hm]

theorem stepMatchSchema_chain_inv (s : RecordingState) (env : Env)
    (ams : List SchemaMapping) (et : Option String)
    (ex : List (String × PyVal))
    (hs : s.status = .processing)
    (hw : ∀ en dd m, env.dynamics en dd = .exn m → m ≠ "") :
    chainFrom s.status (stepMatchSchema s env ams et ex) = true ∧
    (stepMatchSchema s env ams et ex).all stateInvB = true := by
  unfold stepMatchSchema
  cases hf : ams.find? fun sm =>
      match et with
      | some e => sm.entity_name == e
      | Option.none => false with
  | none =>
    rw [hs]
    have hm : ("No schema mapping found for entity type: " ++ fmtOpt et) ≠ "" :=
      str_append_ne_empty_left _ _ (by decide)
    constructor
    · simp [chainFrom, edgeOrStay, spec44_edge, failedWith]
    · simp [stateInvB, failedWith, errNonEmpty, specStatuses, hm]
  | some sm =>
    exact stepValidateMap_chain_inv s env sm ex hs
      (hw sm.dynamics_entity_name (map_fields ex sm.field_mappings))

theorem chainFrom_cons (prev : RecordingStatus) (a : RecordingState)
    (l : List RecordingState) :
    chainFrom prev (a :: l) =
      (edgeOrStay prev a.status && chainFrom a.status l) := rfl

theorem updateAfterExtraction_status (s : RecordingState)
    (r : ExtractionResult) :
    (updateAfterExtraction s r).status = s.status := rfl

theorem stepExtraction_chain_inv (s : RecordingState) (env : Env)
    (ams : List SchemaMapping)
    (hs : s.status = .processing)
    (hwe : ∀ i m, env.extract_attempts i = .exn m → m ≠ "")
    (hwd : ∀ en dd m, env.dynamics en dd = .exn m → m ≠ "") :
    chainFrom s.status (stepExtraction s env ams) = true ∧
    (stepExtraction s env ams).all stateInvB = true := by
  unfold stepExtraction
  split
  case h_1 m heq =>
    have hm : m ≠ "" := by
      obtain ⟨i, hi⟩ := extract_with_retry_exn_source env.extract_attempts 3 m heq
      exact hwe i m hi
    rw [hs]
    constructor
    · simp [chainFrom, edgeOrStay, spec44_edge, failedWith]
    · simp [stateInvB, failedWith, errNonEmpty, specStatuses, hm]
  case h_2 result heq =>
    split
    · rw [hs]
      constructor
      · simp [chainFrom, edgeOrStay, spec44_edge, failedUnknownEntity]
      · simp [stateInvB, failedUnknownEntity, errNonEmpty, specStatuses]
    · split
      case isTrue hmb =>
        have hmiss : get_missing_required_fields result.extracted_data
            (lookupVal result.extracted_data "category") ≠ [] := by
          intro hc
          rw [hc] at hmb
          simp at hmb
        have hm := format_missing_ne_empty _ hmiss
        rw [hs]
        constructor
        · simp [chainFrom, edgeOrStay, spec44_edge, failedMissingFields,
            updateAfterExtraction]
        · simp [stateInvB, failedMissingFields, updateAfterExtraction,
            errNonEmpty, specStatuses, hm]
      case isFalse hmb =>
        have hs4 : (updateAfterExtraction s result).status = .processing := by
          rw [updateAfterExtraction_status, hs]
        have hstep := stepMatchSchema_chain_inv (updateAfterExtraction s result)
          env ams result.entity_type result.extracted_data hs4 hwd
        rw [hs, chainFrom_cons, List.all_cons]
        constructor
        · rw [hs4]
          have h1 := hstep.1
          rw [hs4] at h1
          simp [edgeOrStay, h1]
        · rw [Bool.and_eq_true]
          refine ⟨?_, hstep.2⟩
          simp [stateInvB, specStatuses, hs4]

theorem setProcessing_status (s : RecordingState) :
    (setProcessing s).status = .processing := rfl

theorem updateAfterTranscription_status (s : RecordingState)
    (tr : TranscriptionResult) :
    (updateAfterTranscription s tr).status = .transcribed := rfl

theorem setTranscribing_status (s : RecordingState) :
    (setTranscribing s).status = .transcribing := rfl

theorem stepProcessing_chain_inv (s : RecordingState) (env : Env)
    (hs : s.status = .transcribed)
    (hwe : ∀ i m, env.extract_attempts i = .exn m → m ≠ "")
    (hwd : ∀ en dd m, env.dynamics en dd = .exn m → m ≠ "") :
    chainFrom s.status (stepProcessing s env) = true ∧
    (stepProcessing s env).all stateInvB = true := by
  unfold stepProcessing
  split
  · rw [hs]
    constructor
    · simp [chainFrom, edgeOrStay, spec44_edge, setProcessing, failedWith]
    · simp [stateInvB, setProcessing, failedWith, errNonEmpty, specStatuses]
  · have hstep := stepExtraction_chain_inv (setProcessing s) env
      (env.schema_mappings.filter (·.is_active)) (setProcessing_status s) hwe hwd
    rw [hs, chainFrom_cons, List.all_cons]
    constructor
    · rw [setProcessing_status]
      have h1 := hstep.1
      rw [setProcessing_status] at h1
      simp [edgeOrStay, spec44_edge, h1]
    · rw [Bool.and_eq_true]
      refine ⟨?_, hstep.2⟩
      simp [stateInvB, specStatuses, setProcessing]

theorem stepTranscribe_chain_inv (s1 : RecordingState) (env : Env)
    (hs : s1.status = .transcribing)
    (hwt : ∀ m, env.transcription = .exn m → m ≠ "")
    (hwe : ∀ i m, env.extract_attempts i = .exn m → m ≠ "")
    (hwd : ∀ en dd m, env.dynamics en dd = .exn m → m ≠ "") :
    chainFrom s1.status (stepTranscribe s1 env) = true ∧
    (stepTranscribe s1 env).all stateInvB = true := by
  unfold stepTranscribe
  split
  case h_1 m heq =>
    have hm := hwt m heq
    rw [hs]
    constructor
    · simp [chainFrom, edgeOrStay, spec44_edge, failedWith]
    · simp [stateInvB, failedWith, errNonEmpty, specStatuses, hm]
  case h_2 tr heq =>
    split
    · have hm : ("Transcription failed: " ++ fmtOpt tr.error) ≠ "" :=
        str_append_ne_empty_left _ _ (by decide)
      rw [hs]
      constructor
      · simp [chainFrom, edgeOrStay, spec44_edge, failedWith]
      · simp [stateInvB, failedWith, errNonEmpty, specStatuses, hm]
    · have hstep := stepProcessing_chain_inv (updateAfterTranscription s1 tr)
        env (updateAfterTranscription_status s1 tr) hwe hwd
      rw [hs, chainFrom_cons, List.all_cons]
      constructor
      · rw [updateAfterTranscription_status]
        have h1 := hstep.1
        rw [updateAfterTranscription_status] at h1
        simp [edgeOrStay, spec44_edge, h1]
      · rw [Bool.and_eq_true]
        refine ⟨?_, hstep.2⟩
        simp [stateInvB, specStatuses, updateAfterTranscription]

/-- Claim C1: starting a pipeline run on a job in `UPLOADED` state, under a
well-formed environment (non-empty exception messages), every committed
snapshot — i.e. everything a client polling the API can observe — has one
of the six §4.4 statuses, consecutive snapshots either keep the status or
move along a single §4.4 edge (no stage is skipped), every `SYNCED`
snapshot has `dynamics_record_id` set, and every `FAILED` snapshot has a
non-empty `sync_error`; the initial state itself also satisfies the
per-snapshot invariant. -/
theorem claim_C1 (rec0 : RecordingState) (env : Env)
    (h0 : rec0.status = .uploaded) (hwf : Env.wf env) :
    stateInvB rec0 = true ∧
    chainFrom rec0.status (process_recording rec0 (some ()) env) = true ∧
    (process_recording rec0 (some ()) env).all stateInvB = true := by
  obtain ⟨hw1, hw2, hw3, hw4⟩ := hwf
  refine ⟨by simp [stateInvB, specStatuses, h0], ?_⟩
  unfold process_recording
  split
  · exact ⟨rfl, rfl⟩
  · split
    · rw [h0]
      constructor
      · simp [chainFrom, edgeOrStay, spec44_edge, failedWith]
      · simp [stateInvB, failedWith, errNonEmpty, specStatuses]
    · split
      next m heq =>
        have hm := hw1 m heq
        rw [h0]
        constructor
        · simp [chainFrom, edgeOrStay, spec44_edge, failedWith]
        · simp [stateInvB, failedWith, errNonEmpty, specStatuses, hm]
      next _ heq =>
        have hstep := stepTranscribe_chain_inv (setTranscribing rec0) env
          (setTranscribing_status rec0) hw2 hw3 hw4
        rw [h0, chainFrom_cons, List.all_cons]
        constructor
        · rw [setTranscribing_status]
          have h1 := hstep.1
          rw [setTranscribing_status] at h1
          simp [edgeOrStay, spec44_edge, h1]
        · rw [Bool.and_eq_true]
          refine ⟨?_, hstep.2⟩
          simp [stateInvB, specStatuses, setTranscribing]

theorem stepDynamics_term (s : RecordingState) (env : Env) (en : String)
    (dd : List (String × PyVal)) :
    ∃ pre t, stepDynamics s env en dd = pre ++ [t] ∧ terminalSnapshot t := by
  unfold stepDynamics
  cases env.dynamics en dd with
  | exn m => exact ⟨[], _, rfl, Or.inr ⟨rfl, rfl⟩⟩
  | ok rid => exact ⟨[], _, rfl, Or.inl rfl⟩

theorem stepValidateMap_term (s : RecordingState) (env : Env)
    (sm : SchemaMapping) (ex : List (String × PyVal)) :
    ∃ pre t, stepValidateMap s env sm ex = pre ++ [t] ∧ terminalSnapshot t := by
  unfold stepValidateMap
  split
  · exact ⟨[], _, rfl, Or.inr ⟨rfl, rfl⟩⟩
  · exact stepDynamics_term s env sm.dynamics_entity_name
      (map_fields ex sm.field_mappings)

theorem stepMatchSchema_term (s : RecordingState) (env : Env)
    (ams : List SchemaMapping) (et : Option String)
    (ex : List (String × PyVal)) :
    ∃ pre t, stepMatchSchema s env ams et ex = pre ++ [t] ∧
      terminalSnapshot t := by
  unfold stepMatchSchema
  split
  · exact ⟨[], _, rfl, Or.inr ⟨rfl, rfl⟩⟩
  · exact stepValidateMap_term s env _ ex

theorem stepExtraction_term (s : RecordingState) (env : Env)
    (ams : List SchemaMapping) :
    ∃ pre t, stepExtraction s env ams = pre ++ [t] ∧ terminalSnapshot t := by
  unfold stepExtraction
  split
  · exact ⟨[], _, rfl, Or.inr ⟨rfl, rfl⟩⟩
  · split
    · exact ⟨[], _, rfl, Or.inr ⟨rfl, rfl⟩⟩
    · split
      · exact ⟨[], _, rfl, Or.inr ⟨rfl, rfl⟩⟩
      · rename_i result heq hu hm
        obtain ⟨pre, t, heq2, ht⟩ := stepMatchSchema_term
          (updateAfterExtraction s result) env ams result.entity_type
          result.extracted_data
        exact ⟨updateAfterExtraction s result :: pre, t,
          by rw [heq2, List.cons_append], ht⟩

theorem stepProcessing_term (s : RecordingState) (env : Env) :
    ∃ pre t, stepProcessing s env = pre ++ [t] ∧ terminalSnapshot t := by
  unfold stepProcessing
  split
  · exact ⟨[setProcessing s], _, rfl, Or.inr ⟨rfl, rfl⟩⟩
  · obtain ⟨pre, t, heq, ht⟩ := stepExtraction_term (setProcessing s) env
      (env.schema_mappings.filter (·.is_active))
    exact ⟨setProcessing s :: pre, t, by rw [heq, List.cons_append], ht⟩

theorem stepTranscribe_term (s1 : RecordingState) (env : Env) :
    ∃ pre t, stepTranscribe s1 env = pre ++ [t] ∧ terminalSnapshot t := by
  unfold stepTranscribe
  split
  · exact ⟨[], _, rfl, Or.inr ⟨rfl, rfl⟩⟩
  · split
    · exact ⟨[], _, rfl, Or.inr ⟨rfl, rfl⟩⟩
    · rename_i tr heq hsucc
      obtain ⟨pre, t, heq2, ht⟩ := stepProcessing_term
        (updateAfterTranscription s1 tr) env
      exact ⟨updateAfterTranscription s1 tr :: pre, t,
        by rw [heq2, List.cons_append], ht⟩

theorem process_recording_term (rec0 : RecordingState) (env : Env) :
    ∃ pre t, process_recording rec0 (some ()) env = pre ++ [t] ∧
      terminalSnapshot t := by
  unfold process_recording
  split
  · rename_i heq
    exact Option.noConfusion heq
  · split
    · exact ⟨[], _, rfl, Or.inr ⟨rfl, rfl⟩⟩
    · split
      · exact ⟨[], _, rfl, Or.inr ⟨rfl, rfl⟩⟩
      · obtain ⟨pre, t, heq2, ht⟩ := stepTranscribe_term (setTranscribing rec0) env
        exact ⟨setTranscribing rec0 :: pre, t,
          by rw [heq2, List.cons_append], ht⟩

/-- Claim C2: a pipeline run on an existing job (with its client row
present, as the schema's foreign key guarantees) always ends with a final
committed snapshot in a terminal status — `SYNCED` or `FAILED` — and a
`FAILED` outcome always has the failure recorded in `sync_error`.  The
embedding `process_recording` is a total function into commit traces for
every environment outcome, including raised exceptions: that totality is
the model of the propagation policy that no exception crosses the
orchestrator boundary. -/
theorem claim_C2 (rec0 : RecordingState) (env : Env) :
    ∃ t, (process_recording rec0 (some ()) env).getLast? = some t ∧
      (t.status = .synced ∨ t.status = .failed) ∧
      (t.status = .failed → t.sync_error.isSome) := by
  obtain ⟨pre, t, heq, ht⟩ := process_recording_term rec0 env
  refine ⟨t, by rw [heq]; exact List.getLast?_concat pre, ?_, ?_⟩
  · rcases ht with h | ⟨h, _⟩
    · exact Or.inl h
    · exact Or.inr h
  · intro hf
    rcases ht with h | ⟨-, h2⟩
    · rw [h] at hf
      cases hf
    · exact h2

/-- Claim C8: on a run that reaches extraction (audio present, storage and
transcription succeed, some active mapping configured) whose result has a
known entity type but is missing bioTrack-required fields — always-required
ones, plus the category-dependent `birth_season` and the
`birth_weight`-dependent `birth_weight_uom`, as computed by
`get_missing_required_fields` — the job's final committed snapshot is
`FAILED` with `sync_error` exactly the formatted human-readable prompt of
the missing fields; the run never reaches `SYNCED` and never writes
`dynamics_record_id`.  The statement holds for every schema-mapping set
(matching the entity type or not): the check precedes and is independent of
the tenant's entity-specific mapping lookup. -/
theorem claim_C8 (rec0 : RecordingState) (env : Env)
    (tr : TranscriptionResult) (result : ExtractionResult)
    (hfp : noFilePath rec0.file_path = false)
    (hst : env.storage = .ok ())
    (htr : env.transcription = .ok tr)
    (hsucc : tr.success = true)
    (hmaps : (env.schema_mappings.filter (·.is_active)).isEmpty = false)
    (hx : (extract_with_retry env.extract_attempts 3).1 = .ok result)
    (hu : result.entity_type ≠ some "unknown")
    (hmiss : get_missing_required_fields result.extracted_data
      (lookupVal result.extracted_data "category") ≠ []) :
    ∃ t, (process_recording rec0 (some ()) env).getLast? = some t ∧
      t.status = .failed ∧
      t.sync_error = some (format_missing_fields_prompt
        (get_missing_required_fields result.extracted_data
          (lookupVal result.extracted_data "category"))) ∧
      t.dynamics_record_id = rec0.dynamics_record_id ∧
      ∀ u ∈ process_recording rec0 (some ()) env, u.status ≠ .synced := by
  have hmb : (get_missing_required_fields result.extracted_data
      (lookupVal result.extracted_data "category")).isEmpty = false := by
    cases hgm : get_missing_required_fields result.extracted_data
        (lookupVal result.extracted_data "category") with
    | nil => exact absurd hgm hmiss
    | cons a l => rfl
  have htrace : process_recording rec0 (some ()) env =
      [setTranscribing rec0,
       updateAfterTranscription (setTranscribing rec0) tr,
       setProcessing (updateAfterTranscription (setTranscribing rec0) tr),
       failedMissingFields
         (updateAfterExtraction
           (setProcessing (updateAfterTranscription (setTranscribing rec0) tr))
           result)
         (get_missing_required_fields result.extracted_data
           (lookupVal result.extracted_data "category"))] := by
    simp [process_recording, stepTranscribe, stepProcessing, stepExtraction,
      hfp, hst, htr, hsucc, hmaps, hx, hu, hmb]
  refine ⟨failedMissingFields
      (updateAfterExtraction
        (setProcessing (updateAfterTranscription (setTranscribing rec0) tr))
        result)
      (get_missing_required_fields result.extracted_data
        (lookupVal result.extracted_data "category")),
    by rw [htrace]; rfl, rfl, rfl, rfl, ?_⟩
  rw [htrace]
  intro u hu2
  simp only [List.mem_cons, List.not_mem_nil, or_false] at hu2
  rcases hu2 with h | h | h | h <;> rw [h] <;>
    simp [setTranscribing, updateAfterTranscription, setProcessing,
      failedMissingFields, updateAfterExtraction]

theorem sampleEnv_wf : Env.wf sampleEnv :=
  ⟨fun _ h => Outcome.noConfusion h, fun _ h => Outcome.noConfusion h,
   fun _ _ h => Outcome.noConfusion h, fun _ _ _ h => Outcome.noConfusion h⟩

/-- Witness for C1 on a fully successful concrete run. -/
theorem claim_C1_witness :
    stateInvB sampleRec = true ∧
    chainFrom sampleRec.status (process_recording sampleRec (some ()) sampleEnv)
      = true ∧
    (process_recording sampleRec (some ()) sampleEnv).all stateInvB = true :=
  claim_C1 sampleRec sampleEnv rfl sampleEnv_wf

/-- Witness for C8 on a concrete run whose extraction misses required
fields. -/
theorem claim_C8_witness :
    ∃ t, (process_recording sampleRec (some ()) missingFieldsEnv).getLast?
        = some t ∧
      t.status = .failed ∧
      t.sync_error = some (format_missing_fields_prompt
        (get_missing_required_fields missingFieldsExtraction.extracted_data
          (lookupVal missingFieldsExtraction.extracted_data "category"))) ∧
      t.dynamics_record_id = sampleRec.dynamics_record_id ∧
      ∀ u ∈ process_recording sampleRec (some ()) missingFieldsEnv,
        u.status ≠ .synced :=
  claim_C8 sampleRec missingFieldsEnv sampleTranscription
    missingFieldsExtraction rfl rfl rfl rfl rfl rfl (by decide) (by decide)

end FarmSpec
